import Mathlib

/-!
Formal model of the acquisition-and-session core of `GUI_V11.py`
(class `UroflowmetryApp`): the serial decode step, the periodic
acquisition tick `update_plot`, the session commands `start_action`,
`stop_action`, `clear_action`, and the export path `save_data` /
`save_plots`.

Modelling conventions:
* Raw serial lines are lists of characters (Python strings are character
  sequences); `trimChars` and `splitOnComma` embed `str.strip()` and
  `str.split(',')`.
* Numeric sample values and instants are exact rationals; Python `float`
  applied to a plain decimal numeral field (the only shape the device
  protocol produces) is embedded by `parseFloat`.  Exponent, infinity and
  underscore forms accepted by Python `float` do not occur in the
  protocol and are out of scope.
* The Tk labels `y1_label` / `y2_label` are modelled by the numeric value
  they display (`0` stands for the reset texts `"Flowrate: 0 mL/s"` /
  `"Volume: 0 mL"`).
* The pyserial handle is an optional record carrying its `is_open` flag
  and the list of bytes written so far; `serial_port = none` models
  `self.serial_port is None`.
* An uncaught Python exception raised by a command is modelled as an
  error value returned next to the (already mutated) state.
-/

namespace Uroflow

/-- Digits of a numeral folded into a natural number, mirroring how a
digit string denotes its value (`'0'` has code point 48). -/
def digitsToNat (cs : List Char) : ℕ :=
  cs.foldl (fun acc c => acc * 10 + (c.toNat - 48)) 0

/-- Every character of the list is a decimal digit. -/
def allDigits (cs : List Char) : Bool :=
  cs.all Char.isDigit

/-- Embedding of `str.strip()`: remove leading and trailing whitespace. -/
def trimChars (cs : List Char) : List Char :=
  ((cs.dropWhile Char.isWhitespace).reverse.dropWhile Char.isWhitespace).reverse

/-- Embedding of `str.split(',')`: split at every comma, keeping empty
fields; the empty string yields one empty field, as in Python. -/
def splitOnComma : List Char → List (List Char)
  | [] => [[]]
  | c :: rest =>
    if c = ',' then
      [] :: splitOnComma rest
    else
      match splitOnComma rest with
      | [] => [[c]]
      | g :: gs => (c :: g) :: gs

/-- Embedding of Python `float()` applied to one field of the device
line: optional surrounding whitespace, optional sign, then a decimal
numeral `d+`, `d+.d*` or `.d+`.  Returns `none` exactly when Python
`float` would raise `ValueError` on such a field (e.g. `"abc"`, `""`). -/
def parseFloat (cs : List Char) : Option ℚ :=
  let t := trimChars cs
  let sr : Bool × List Char :=
    match t with
    | '-' :: r => (true, r)
    | '+' :: r => (false, r)
    | r => (false, r)
  let ip := sr.2.takeWhile (fun c => c ≠ '.')
  match sr.2.dropWhile (fun c => c ≠ '.') with
  | [] =>
    if !ip.isEmpty && allDigits ip then
      some (match sr.1 with
            | true => -(digitsToNat ip : ℚ)
            | false => (digitsToNat ip : ℚ))
    else none
  | _ :: fp =>
    if (!ip.isEmpty || !fp.isEmpty) && allDigits ip && allDigits fp then
      some (match sr.1 with
            | true => -((digitsToNat ip : ℚ) + (digitsToNat fp : ℚ) / (10 : ℚ) ^ fp.length)
            | false => ((digitsToNat ip : ℚ) + (digitsToNat fp : ℚ) / (10 : ℚ) ^ fp.length))
    else none

/-- Decode step of `update_plot` (lines 235-237 of the source): strip
the raw line, split on commas, require exactly two fields, and parse
both with `float`.  `none` covers every failure the code absorbs: wrong
field count (including the empty line, whose split is one field) and a
field on which `float` raises. -/
def decode_line (line : List Char) : Option (ℚ × ℚ) :=
  match splitOnComma (trimChars line) with
  | [a, b] =>
    match parseFloat a, parseFloat b with
    | some y1, some y2 => some (y1, y2)
    | _, _ => none
  | _ => none

/-- Model of the pyserial handle: its open flag and the bytes written. -/
structure SerialPort where
  is_open : Bool
  written : List Char
deriving DecidableEq

/-- Mutable state of `UroflowmetryApp` relevant to the session core:
the optional serial handle, the three data series, the running flag, the
session start instant, and the two value labels. -/
structure AppState where
  serial_port : Option SerialPort
  x_data : List ℚ
  y1_data : List ℚ
  y2_data : List ℚ
  is_running : Bool
  start_time : ℚ
  y1_label : ℚ
  y2_label : ℚ
deriving DecidableEq

/-- State built by `__init__` for a given outcome of `connect_serial`:
empty series, not running, zero labels.  `start_time` is first assigned
by Start in the Python code; it is initialised to `0` here and is
unobservable while `is_running` is false. -/
def init (port : Option SerialPort) : AppState :=
  { serial_port := port, x_data := [], y1_data := [], y2_data := [],
    is_running := false, start_time := 0, y1_label := 0, y2_label := 0 }

/-- The guard `self.serial_port and self.serial_port.is_open` of
`update_plot`. -/
def serial_port_open (s : AppState) : Bool :=
  match s.serial_port with
  | some p => p.is_open
  | none => false

/-- One acquisition tick (`update_plot`, lines 227-260).  `pending` is
the line `readline` would deliver (`none` when `in_waiting == 0`).  On a
successful decode the three series are extended and the labels updated;
on any decode failure the exception is caught and logged and the state
is untouched.  The boolean component records that `root.after(100, ...)`
reschedules the tick, which the code does unconditionally (line 260). -/
def update_plot (s : AppState) (now : ℚ) (pending : Option (List Char)) :
    AppState × Bool :=
  let s1 :=
    if s.is_running && serial_port_open s then
      match pending with
      | none => s
      | some line =>
        match decode_line line with
        | some (y1, y2) =>
          { s with
            x_data := s.x_data ++ [now - s.start_time]
            y1_data := s.y1_data ++ [y1]
            y2_data := s.y2_data ++ [y2]
            y1_label := y1
            y2_label := y2 }
        | none => s
    else s
  (s1, true)

/-- Error raised by writing to a serial handle that exists but is not
open (pyserial `PortNotOpenError`). -/
inductive StartError where
  | portNotOpen
deriving DecidableEq

/-- Source method `initialize_plot_data` (lines 269-280): sets the
running flag, records the session start instant, and clears the three
series. -/
def init_plot_data (s : AppState) (now : ℚ) : AppState :=
  { s with is_running := true, start_time := now,
           x_data := [], y1_data := [], y2_data := [] }

/-- Source method `start_serial_communication` (lines 282-287): if the
handle is not `None`, write the single start byte `b'A'`; a handle that
exists but is closed makes pyserial raise, which the method does not
catch. -/
def start_serial_communication (s : AppState) : AppState × Option StartError :=
  match s.serial_port with
  | some p =>
    if p.is_open then
      ({ s with serial_port := some { p with written := p.written ++ ['A'] } }, none)
    else (s, some StartError.portNotOpen)
  | none => (s, none)

/-- Source method `start_action` (lines 262-267): unconditionally reset
the plot data, then send the start command. -/
def start_action (s : AppState) (now : ℚ) : AppState × Option StartError :=
  start_serial_communication (init_plot_data s now)

/-- Source method `stop_action` (lines 289-293): only lowers the
running flag. -/
def stop_action (s : AppState) : AppState :=
  { s with is_running := false }

/-- Source method `clear_action` (lines 295-306): clears the three
series and resets both labels to their zero texts. -/
def clear_action (s : AppState) : AppState :=
  { s with x_data := [], y1_data := [], y2_data := [],
           y1_label := 0, y2_label := 0 }

/-- Artifact content rendered by `save_plots` (lines 455-475): the
values of the three series at call time, baked into the saved images. -/
structure Snapshot where
  x : List ℚ
  y1 : List ℚ
  y2 : List ℚ
deriving DecidableEq

/-- Source method `save_plots`: reads the live series and renders them
into files; the produced artifact is a copy of the data at call time. -/
def save_plots (s : AppState) : Snapshot :=
  { x := s.x_data, y1 := s.y1_data, y2 := s.y2_data }

/-- Error vocabulary of the spec for export. -/
inductive ExportError where
  | EmptySession
deriving DecidableEq

/-- Export path of the code (`save_data` → `generate_pdf` →
`save_plots`): it performs no emptiness check on the sample buffer and
always produces the snapshot of the current series. -/
def save_data_export (s : AppState) : Except ExportError Snapshot :=
  Except.ok (save_plots s)

/-- Export as the specification words it, for refinement comparison:
requires at least one sample and otherwise fails with `EmptySession`. -/
def export_spec (s : AppState) : Except ExportError Snapshot :=
  if s.x_data.isEmpty then Except.error ExportError.EmptySession
  else Except.ok (save_plots s)

/-- Iterated acquisition ticks over a list of (instant, pending line)
events, each tick rescheduling the next. -/
def run_ticks (s : AppState) : List (ℚ × Option (List Char)) → AppState
  | [] => s
  | e :: rest => run_ticks (update_plot s e.1 e.2).1 rest

/-- The three series of the sample buffer have equal lengths. -/
def buffer_wf (s : AppState) : Prop :=
  s.x_data.length = s.y1_data.length ∧ s.x_data.length = s.y2_data.length

/-- A tick either leaves the state unchanged or appends one sample to
all three series (and updates the labels). -/
theorem update_plot_cases (s : AppState) (now : ℚ) (p : Option (List Char)) :
    (update_plot s now p).1 = s ∨
    ∃ y1 y2, (update_plot s now p).1 =
      { s with x_data := s.x_data ++ [now - s.start_time],
               y1_data := s.y1_data ++ [y1],
               y2_data := s.y2_data ++ [y2],
               y1_label := y1, y2_label := y2 } := by
  unfold update_plot
  cases hb : (s.is_running && serial_port_open s) with
  | false => simp
  | true =>
    cases p with
    | none => simp
    | some line =>
      cases hd : decode_line line with
      | none => simp [hd]
      | some yy =>
        obtain ⟨y1, y2⟩ := yy
        right
        exact ⟨y1, y2, by simp [hd]⟩

/-- A tick never changes the recorded session start instant. -/
theorem update_plot_start_time (s : AppState) (now : ℚ) (p : Option (List Char)) :
    (update_plot s now p).1.start_time = s.start_time := by
  rcases update_plot_cases s now p with h | ⟨y1, y2, h⟩ <;> rw [h]

/-- A tick never changes the running flag. -/
theorem update_plot_is_running (s : AppState) (now : ℚ) (p : Option (List Char)) :
    (update_plot s now p).1.is_running = s.is_running := by
  rcases update_plot_cases s now p with h | ⟨y1, y2, h⟩ <;> rw [h]

/-- A tick never touches the serial handle. -/
theorem update_plot_serial (s : AppState) (now : ℚ) (p : Option (List Char)) :
    (update_plot s now p).1.serial_port = s.serial_port := by
  rcases update_plot_cases s now p with h | ⟨y1, y2, h⟩ <;> rw [h]

/-- While the running flag is down, a tick is a pure pass-through. -/
theorem update_plot_not_running (s : AppState) (now : ℚ) (p : Option (List Char))
    (h : s.is_running = false) : (update_plot s now p).1 = s := by
  unfold update_plot
  simp [h]

/-- While the running flag is down, any number of ticks leaves the
state unchanged. -/
theorem run_ticks_not_running (ticks : List (ℚ × Option (List Char))) :
    ∀ s : AppState, s.is_running = false → run_ticks s ticks = s := by
  induction ticks with
  | nil => intro s _; rfl
  | cons e rest ih =>
    intro s h
    show run_ticks (update_plot s e.1 e.2).1 rest = s
    rw [update_plot_not_running s e.1 e.2 h]
    exact ih s h

/-- Effect of `start_action` on the fields it always sets, whatever the
serial handle looks like. -/
theorem start_action_fields (s : AppState) (now : ℚ) :
    (start_action s now).1.x_data = [] ∧
    (start_action s now).1.y1_data = [] ∧
    (start_action s now).1.y2_data = [] ∧
    (start_action s now).1.start_time = now ∧
    (start_action s now).1.is_running = true := by
  unfold start_action start_serial_communication init_plot_data
  cases hsp : s.serial_port with
  | none => simp [hsp]
  | some p =>
    cases ho : p.is_open with
    | false => simp [hsp, ho]
    | true => simp [hsp, ho]

/-- Core induction for the monotone-elapsed invariant: if the buffer is
already sorted and bounded by the elapsed value of the current instant,
running ticks at non-decreasing instants keeps it sorted. -/
theorem run_ticks_chain_aux (ticks : List (ℚ × Option (List Char))) :
    ∀ (s : AppState) (c : ℚ),
      List.Chain' (fun a b : ℚ => a ≤ b) s.x_data →
      (∀ x ∈ s.x_data, x ≤ c - s.start_time) →
      List.Chain' (fun a b : ℚ => a ≤ b) (c :: ticks.map Prod.fst) →
      List.Chain' (fun a b : ℚ => a ≤ b) (run_ticks s ticks).x_data := by
  induction ticks with
  | nil =>
    intro s c hs _ _
    exact hs
  | cons e rest ih =>
    intro s c hs hub hch
    obtain ⟨now, p⟩ := e
    rw [List.map_cons] at hch
    have hcle : c ≤ now := (List.chain'_cons.mp hch).1
    have hch2 := (List.chain'_cons.mp hch).2
    show List.Chain' _ (run_ticks (update_plot s now p).1 rest).x_data
    rcases update_plot_cases s now p with heq | ⟨y1, y2, heq⟩
    · refine ih _ now ?_ ?_ hch2
      · rw [heq]; exact hs
      · rw [heq]
        intro x hx
        exact le_trans (hub x hx) (sub_le_sub_right hcle _)
    · refine ih _ now ?_ ?_ hch2
      · rw [heq]
        show List.Chain' _ (s.x_data ++ [now - s.start_time])
        rw [List.chain'_append]
        refine ⟨hs, List.chain'_singleton _, ?_⟩
        intro x hx y hy
        obtain ⟨hne, hxl⟩ := List.mem_getLast?_eq_getLast hx
        have hxmem : x ∈ s.x_data := hxl ▸ List.getLast_mem hne
        have hy1 : y = now - s.start_time := by
          have := hy
          simp only [List.head?_cons, Option.mem_def, Option.some.injEq] at this
          exact this.symm
        rw [hy1]
        exact le_trans (hub x hxmem) (sub_le_sub_right hcle _)
      · rw [heq]
        intro x hx
        show x ≤ now - s.start_time
        rcases List.mem_append.mp hx with hxo | hxn
        · exact le_trans (hub x hxo) (sub_le_sub_right hcle _)
        · rw [List.mem_singleton.mp hxn]

/-- On a running session with an open link, a decodable pending line
makes the tick append exactly one sample to all three series and update
both labels. -/
theorem update_plot_append (s : AppState) (now : ℚ) (line : List Char) (y1 y2 : ℚ)
    (hrun : s.is_running = true) (hopen : serial_port_open s = true)
    (hdec : decode_line line = some (y1, y2)) :
    (update_plot s now (some line)).1 =
      { s with x_data := s.x_data ++ [now - s.start_time],
               y1_data := s.y1_data ++ [y1],
               y2_data := s.y2_data ++ [y2],
               y1_label := y1, y2_label := y2 } := by
  unfold update_plot
  simp [hrun, hopen, hdec]

/-- A pending line that fails to decode leaves any state untouched. -/
theorem update_plot_bad_line (s : AppState) (now : ℚ) (line : List Char)
    (hbad : decode_line line = none) :
    (update_plot s now (some line)).1 = s := by
  unfold update_plot
  cases hb : (s.is_running && serial_port_open s) <;> simp [hb, hbad]

/-- Serial handle of the concrete states used by witnesses: open, with
nothing written yet. -/
def sampleOpenPort : SerialPort :=
  { is_open := true, written := [] }

/-- Concrete running state with one collected sample, used by
witnesses. -/
def sampleRunning : AppState :=
  { serial_port := some sampleOpenPort, x_data := [1], y1_data := [2], y2_data := [3],
    is_running := true, start_time := 0, y1_label := 2, y2_label := 3 }

/-- Claim C1, counterexample: from the initial state with no serial
handle (Device Link not open), Start at instant 5 raises no error and
the session becomes Running — the code neither fails with
`LinkUnavailable` nor leaves the state unchanged. -/
theorem start_without_link_cex :
    serial_port_open (init none) = false ∧
    (start_action (init none) 5).2 = none ∧
    (start_action (init none) 5).1.is_running = true :=
  ⟨rfl, rfl, rfl⟩

/-- Claim C1, amended: `start_action` performs no link check.  If the
handle is `None`, Start succeeds silently: the session becomes Running
with `start_time = now` and a cleared buffer, and no byte is written.
If the handle exists but is closed, the state is likewise mutated to
Running with a cleared buffer first, and the subsequent write raises
`portNotOpen`, which `start_action` does not catch. -/
theorem start_without_link (s t : AppState) (p : SerialPort) (now m : ℚ)
    (hnone : s.serial_port = none)
    (hsome : t.serial_port = some p) (hclosed : p.is_open = false) :
    start_action s now =
      ({ s with is_running := true, start_time := now,
                x_data := [], y1_data := [], y2_data := [] }, none) ∧
    start_action t m =
      ({ t with is_running := true, start_time := m,
                x_data := [], y1_data := [], y2_data := [] },
       some StartError.portNotOpen) := by
  constructor
  · unfold start_action start_serial_communication init_plot_data
    simp [hnone]
  · unfold start_action start_serial_communication init_plot_data
    simp [hsome, hclosed]

/-- Witness for the amended C1 statement at concrete inputs. -/
theorem start_without_link_witness :
    start_action (init none) 5 =
      ({ (init none) with
           is_running := true, start_time := 5,
           x_data := [], y1_data := [], y2_data := [] }, none) ∧
    start_action (init (some { is_open := false, written := [] })) 7 =
      ({ (init (some { is_open := false, written := [] })) with
           is_running := true, start_time := 7,
           x_data := [], y1_data := [], y2_data := [] },
       some StartError.portNotOpen) :=
  start_without_link (init none) (init (some { is_open := false, written := [] }))
    { is_open := false, written := [] } 5 7 rfl rfl rfl

/-- Claim C2, counterexample: on the initial state the sample buffer is
empty, yet the export path of the code produces an (empty) snapshot
artifact instead of failing, while the export the specification words
demands `EmptySession` there. -/
theorem export_empty_cex :
    (init none).x_data = [] ∧
    save_data_export (init none) = Except.ok { x := [], y1 := [], y2 := [] } ∧
    export_spec (init none) = Except.error ExportError.EmptySession :=
  ⟨rfl, rfl, rfl⟩

/-- Claim C2, amended: the code never rejects an export.  On a
non-empty buffer it agrees with the specified export: the snapshot's
sample count equals the buffer's count at call time and the snapshot is
a copy of the three series (so a later mutation, e.g. the Clear that
empties the live buffer, cannot affect it).  On an empty buffer it does
not fail but produces an empty snapshot. -/
theorem export_snapshot_spec (s s0 : AppState)
    (h : s.x_data ≠ []) (h0 : s0.x_data = []) :
    save_data_export s = export_spec s ∧
    save_data_export s = Except.ok (save_plots s) ∧
    (save_plots s).x.length = s.x_data.length ∧
    (save_plots s).x = s.x_data ∧
    (save_plots s).y1 = s.y1_data ∧
    (save_plots s).y2 = s.y2_data ∧
    (clear_action s).x_data = [] ∧
    save_data_export s0 = Except.ok (save_plots s0) ∧
    (save_plots s0).x = [] := by
  refine ⟨?_, rfl, rfl, rfl, rfl, rfl, rfl, rfl, h0⟩
  unfold save_data_export export_spec
  rw [if_neg (by simpa [List.isEmpty_iff] using h)]

/-- Witness for the amended C2 statement at a concrete one-sample state
and the concrete empty initial state. -/
theorem export_snapshot_spec_witness :
    save_data_export sampleRunning = export_spec sampleRunning ∧
    save_data_export sampleRunning = Except.ok (save_plots sampleRunning) ∧
    (save_plots sampleRunning).x.length = sampleRunning.x_data.length ∧
    (save_plots sampleRunning).x = sampleRunning.x_data ∧
    (save_plots sampleRunning).y1 = sampleRunning.y1_data ∧
    (save_plots sampleRunning).y2 = sampleRunning.y2_data ∧
    (clear_action sampleRunning).x_data = [] ∧
    save_data_export (init none) = Except.ok (save_plots (init none)) ∧
    (save_plots (init none)).x = [] :=
  export_snapshot_spec sampleRunning (init none) (List.cons_ne_nil _ _) rfl

/-- Claim C3 (confirmed): every malformed raw line — wrong field count,
a field on which `float` raises, or the empty string — is discarded:
the whole state (in particular the buffer length and the running flag)
is untouched, the tick still reschedules, so the caught exception never
escapes the acquisition tick or stops the session, and a valid line
arriving at the next tick is still appended.  The last two conjuncts
record that the empty line and the line `"abc"` are such failures. -/
theorem malformed_line_discarded (s t : AppState) (now m : ℚ)
    (line good : List Char) (y1 y2 : ℚ)
    (hbad : decode_line line = none)
    (hrun : t.is_running = true) (hopen : serial_port_open t = true)
    (hgood : decode_line good = some (y1, y2)) :
    (update_plot s now (some line)).1 = s ∧
    (update_plot s now (some line)).2 = true ∧
    (update_plot s now (some line)).1.x_data.length = s.x_data.length ∧
    (update_plot s now (some line)).1.is_running = s.is_running ∧
    (update_plot (update_plot t now (some line)).1 m (some good)).1.x_data
      = t.x_data ++ [m - t.start_time] ∧
    decode_line [] = none ∧
    decode_line ("abc".data) = none := by
  have h1 := update_plot_bad_line s now line hbad
  refine ⟨h1, rfl, by rw [h1], by rw [h1], ?_, rfl, rfl⟩
  rw [update_plot_bad_line t now line hbad,
      update_plot_append t m good y1 y2 hrun hopen hgood]

/-- Witness for C3: the malformed line `"abc"` at a concrete running
state, followed by the valid line `"1,2"`. -/
theorem malformed_line_discarded_witness :
    (update_plot sampleRunning 3 (some ("abc".data))).1 = sampleRunning ∧
    (update_plot sampleRunning 3 (some ("abc".data))).2 = true ∧
    (update_plot sampleRunning 3 (some ("abc".data))).1.x_data.length
      = sampleRunning.x_data.length ∧
    (update_plot sampleRunning 3 (some ("abc".data))).1.is_running
      = sampleRunning.is_running ∧
    (update_plot (update_plot sampleRunning 3 (some ("abc".data))).1 4
        (some ("1,2".data))).1.x_data
      = sampleRunning.x_data ++ [4 - sampleRunning.start_time] ∧
    decode_line [] = none ∧
    decode_line ("abc".data) = none :=
  malformed_line_discarded sampleRunning sampleRunning 3 4 ("abc".data) ("1,2".data)
    (((1 : ℕ) : ℚ)) (((2 : ℕ) : ℚ)) rfl rfl rfl rfl

/-- Claim C4 (confirmed): a line whose strip-and-split yields exactly
two fields, both accepted by `float`, received while the session is
Running and the link is open, appends exactly one sample whose flow is
the first field's value, whose volume is the second field's value, and
whose elapsed time is the current instant minus the `start_time`
recorded at the most recent Start. -/
theorem valid_line_appends_sample (s : AppState) (now : ℚ)
    (line a b : List Char) (y1 y2 : ℚ)
    (hrun : s.is_running = true) (hopen : serial_port_open s = true)
    (hsplit : splitOnComma (trimChars line) = [a, b])
    (ha : parseFloat a = some y1) (hb : parseFloat b = some y2) :
    (update_plot s now (some line)).1 =
      { s with x_data := s.x_data ++ [now - s.start_time],
               y1_data := s.y1_data ++ [y1],
               y2_data := s.y2_data ++ [y2],
               y1_label := y1, y2_label := y2 } ∧
    (update_plot s now (some line)).1.x_data.length = s.x_data.length + 1 := by
  have hdec : decode_line line = some (y1, y2) := by
    unfold decode_line
    rw [hsplit]
    simp [ha, hb]
  have hmain := update_plot_append s now line y1 y2 hrun hopen hdec
  refine ⟨hmain, ?_⟩
  rw [hmain]
  simp

/-- Witness for C4: the protocol example line `"12.50,48.30"` at a
concrete running state. -/
theorem valid_line_appends_sample_witness :
    (update_plot sampleRunning 3 (some ("12.50,48.30".data))).1 =
      { sampleRunning with
          x_data := sampleRunning.x_data ++ [3 - sampleRunning.start_time],
          y1_data := sampleRunning.y1_data
            ++ [((12 : ℕ) : ℚ) + ((50 : ℕ) : ℚ) / (10 : ℚ) ^ 2],
          y2_data := sampleRunning.y2_data
            ++ [((48 : ℕ) : ℚ) + ((30 : ℕ) : ℚ) / (10 : ℚ) ^ 2],
          y1_label := ((12 : ℕ) : ℚ) + ((50 : ℕ) : ℚ) / (10 : ℚ) ^ 2,
          y2_label := ((48 : ℕ) : ℚ) + ((30 : ℕ) : ℚ) / (10 : ℚ) ^ 2 } ∧
    (update_plot sampleRunning 3 (some ("12.50,48.30".data))).1.x_data.length
      = sampleRunning.x_data.length + 1 :=
  valid_line_appends_sample sampleRunning 3 ("12.50,48.30".data)
    ("12.50".data) ("48.30".data)
    (((12 : ℕ) : ℚ) + ((50 : ℕ) : ℚ) / (10 : ℚ) ^ 2)
    (((48 : ℕ) : ℚ) + ((30 : ℕ) : ℚ) / (10 : ℚ) ^ 2)
    rfl rfl rfl rfl rfl

/-- Claim C5 (confirmed): from any prior state whose link handle exists
and is open, Start sets the session Running, records
`start_time = now`, resets all three series to empty — before any new
sample can be appended, since appends only happen in later ticks — and
writes the single control byte `A` to the link. -/
theorem start_resets_and_sends (s : AppState) (p : SerialPort) (now : ℚ)
    (hport : s.serial_port = some p) (hopen : p.is_open = true) :
    start_action s now =
      ({ s with is_running := true, start_time := now,
                x_data := [], y1_data := [], y2_data := [],
                serial_port := some { p with written := p.written ++ ['A'] } },
       none) := by
  unfold start_action start_serial_communication init_plot_data
  simp [hport, hopen]

/-- Witness for C5 at the concrete idle initial state with an open
handle. -/
theorem start_resets_and_sends_witness :
    start_action (init (some sampleOpenPort)) 5 =
      ({ (init (some sampleOpenPort)) with
           is_running := true, start_time := 5,
           x_data := [], y1_data := [], y2_data := [],
           serial_port := some { sampleOpenPort with
                                   written := sampleOpenPort.written ++ ['A'] } },
       none) :=
  start_resets_and_sends (init (some sampleOpenPort)) sampleOpenPort 5 rfl rfl

/-- Claim C6 (confirmed): Clear, from any state, empties the three
series, resets both displayed values to zero, is idempotent, and leaves
the running flag (and the link) untouched; on a running state with an
open link, the next decoded sample lands in the freshly emptied buffer. -/
theorem clear_empties_any_state (s t : AppState) (now : ℚ)
    (line : List Char) (y1 y2 : ℚ)
    (hrun : t.is_running = true) (hopen : serial_port_open t = true)
    (hdec : decode_line line = some (y1, y2)) :
    (clear_action s).x_data = [] ∧
    (clear_action s).y1_data = [] ∧
    (clear_action s).y2_data = [] ∧
    (clear_action s).y1_label = 0 ∧
    (clear_action s).y2_label = 0 ∧
    clear_action (clear_action s) = clear_action s ∧
    (clear_action s).is_running = s.is_running ∧
    (update_plot (clear_action t) now (some line)).1.x_data
      = [now - t.start_time] := by
  refine ⟨rfl, rfl, rfl, rfl, rfl, rfl, rfl, ?_⟩
  rw [update_plot_append (clear_action t) now line y1 y2 hrun hopen hdec]
  simp [clear_action]

/-- Witness for C6 at a concrete running state and the valid line
`"1,2"`. -/
theorem clear_empties_any_state_witness :
    (clear_action sampleRunning).x_data = [] ∧
    (clear_action sampleRunning).y1_data = [] ∧
    (clear_action sampleRunning).y2_data = [] ∧
    (clear_action sampleRunning).y1_label = 0 ∧
    (clear_action sampleRunning).y2_label = 0 ∧
    clear_action (clear_action sampleRunning) = clear_action sampleRunning ∧
    (clear_action sampleRunning).is_running = sampleRunning.is_running ∧
    (update_plot (clear_action sampleRunning) 3 (some ("1,2".data))).1.x_data
      = [3 - sampleRunning.start_time] :=
  clear_empties_any_state sampleRunning sampleRunning 3 ("1,2".data)
    (((1 : ℕ) : ℚ)) (((2 : ℕ) : ℚ)) rfl rfl rfl

/-- Claim C9 (confirmed): the three series always have equal lengths:
the initial state, Start, Clear, Stop, and every tick preserve the
invariant; in particular the line `"1,a"`, whose first field parses and
whose second does not, causes no partial append — the state is
untouched. -/
theorem series_lengths_invariant (s : AppState) (port : Option SerialPort)
    (now : ℚ) (p : Option (List Char)) (h : buffer_wf s) :
    buffer_wf (init port) ∧
    buffer_wf (start_action s now).1 ∧
    buffer_wf (clear_action s) ∧
    buffer_wf (stop_action s) ∧
    buffer_wf (update_plot s now p).1 ∧
    decode_line ("1,a".data) = none ∧
    (update_plot s now (some ("1,a".data))).1 = s := by
  obtain ⟨hf1, hf2, hf3, _, _⟩ := start_action_fields s now
  refine ⟨⟨rfl, rfl⟩, ?_, ⟨rfl, rfl⟩, h, ?_, rfl, update_plot_bad_line s now _ rfl⟩
  · exact ⟨by rw [hf1, hf2], by rw [hf1, hf3]⟩
  · rcases update_plot_cases s now p with heq | ⟨y1, y2, heq⟩
    · rw [heq]; exact h
    · rw [heq]
      exact ⟨by simp [h.1], by simp [h.2]⟩

/-- Witness for C9 at a concrete well-formed running state. -/
theorem series_lengths_invariant_witness :
    buffer_wf (init (some sampleOpenPort)) ∧
    buffer_wf (start_action sampleRunning 5).1 ∧
    buffer_wf (clear_action sampleRunning) ∧
    buffer_wf (stop_action sampleRunning) ∧
    buffer_wf (update_plot sampleRunning 3 (some ("1,2".data))).1 ∧
    decode_line ("1,a".data) = none ∧
    (update_plot sampleRunning 3 (some ("1,a".data))).1 = sampleRunning :=
  series_lengths_invariant sampleRunning (some sampleOpenPort) 3
    (some ("1,2".data)) ⟨rfl, rfl⟩

/-- Claim C10 (confirmed): Start is accepted while the session is
already Running: no error is raised, the buffer is emptied, the start
instant is reset to `now`, the start byte is sent again, and the
session remains Running. -/
theorem start_while_running_restarts (s : AppState) (p : SerialPort) (now : ℚ)
    (_hrun : s.is_running = true)
    (hport : s.serial_port = some p) (hopen : p.is_open = true) :
    (start_action s now).2 = none ∧
    (start_action s now).1.is_running = true ∧
    (start_action s now).1.x_data = [] ∧
    (start_action s now).1.y1_data = [] ∧
    (start_action s now).1.y2_data = [] ∧
    (start_action s now).1.start_time = now ∧
    (start_action s now).1.serial_port
      = some { p with written := p.written ++ ['A'] } := by
  unfold start_action start_serial_communication init_plot_data
  simp [hport, hopen]

/-- Witness for C10 at the concrete running one-sample state. -/
theorem start_while_running_restarts_witness :
    (start_action sampleRunning 5).2 = none ∧
    (start_action sampleRunning 5).1.is_running = true ∧
    (start_action sampleRunning 5).1.x_data = [] ∧
    (start_action sampleRunning 5).1.y1_data = [] ∧
    (start_action sampleRunning 5).1.y2_data = [] ∧
    (start_action sampleRunning 5).1.start_time = 5 ∧
    (start_action sampleRunning 5).1.serial_port
      = some { sampleOpenPort with written := sampleOpenPort.written ++ ['A'] } :=
  start_while_running_restarts sampleRunning sampleOpenPort 5 rfl rfl rfl

/-- Claim C7 (confirmed): after Stop the session is not Running, any
sequence of further ticks — whatever lines the device keeps sending —
leaves the state (in particular the collected series) unchanged, the
previously collected data is not cleared by Stop, and every tick still
reschedules itself. -/
theorem stop_halts_appends (s : AppState) (ticks : List (ℚ × Option (List Char)))
    (now : ℚ) (p : Option (List Char)) :
    (stop_action s).is_running = false ∧
    run_ticks (stop_action s) ticks = stop_action s ∧
    (stop_action s).x_data = s.x_data ∧
    (stop_action s).y1_data = s.y1_data ∧
    (stop_action s).y2_data = s.y2_data ∧
    (update_plot (stop_action s) now p).2 = true :=
  ⟨rfl, run_ticks_not_running ticks (stop_action s) rfl, rfl, rfl, rfl, rfl⟩

/-- Claim C8 (confirmed): starting a session at instant `t0` and running
any sequence of ticks whose instants are non-decreasing (and not before
`t0`) leaves the buffer's elapsed-time series non-decreasing in arrival
order. -/
theorem elapsed_nondecreasing (s : AppState) (t0 : ℚ)
    (ticks : List (ℚ × Option (List Char)))
    (hmono : List.Chain' (fun a b : ℚ => a ≤ b) (t0 :: ticks.map Prod.fst)) :
    List.Chain' (fun a b : ℚ => a ≤ b)
      (run_ticks (start_action s t0).1 ticks).x_data := by
  obtain ⟨hx, _, _, hst, _⟩ := start_action_fields s t0
  refine run_ticks_chain_aux ticks (start_action s t0).1 t0 ?_ ?_ hmono
  · rw [hx]
    exact List.chain'_nil
  · rw [hx]
    intro x hx2
    exact absurd hx2 (List.not_mem_nil x)

/-- Witness for C8: a concrete session started at instant 0 receiving
`"1,2"` at instant 1 and `"3,4"` at instant 2. -/
theorem elapsed_nondecreasing_witness :
    List.Chain' (fun a b : ℚ => a ≤ b)
      (run_ticks (start_action (init (some sampleOpenPort)) 0).1
        [(1, some ("1,2".data)), (2, some ("3,4".data))]).x_data :=
  elapsed_nondecreasing (init (some sampleOpenPort)) 0
    [(1, some ("1,2".data)), (2, some ("3,4".data))]
    (List.chain'_cons.mpr ⟨by norm_num,
      List.chain'_cons.mpr ⟨by norm_num, List.chain'_singleton 2⟩⟩)

end Uroflow
